import Mathlib

/-!
Verification of the authentication and session lifecycle of the movie-app
repository: the Next.js session middleware (`updateSession`), the client
`AuthService` facade, the password-reset service, and the password forms.

Each definition is a shallow embedding of the corresponding TypeScript
function; strings are modelled by Lean `String`, JavaScript string
operations (`startsWith`, `includes`, `toLowerCase`, truthiness of
string-or-null values) by explicit Lean functions, and network calls to the
identity provider by an explicit outcome parameter.
-/

/- ### JavaScript string primitives -/

/-- Embedding of JavaScript `s.startsWith(pre)`. -/
def jsStartsWith (s pre : String) : Bool := pre.data.isPrefixOf s.data

/-- Embedding of JavaScript `s.toLowerCase()` (the error strings involved are
ASCII, where `Char.toLower` and JavaScript agree). -/
def jsToLower (s : String) : String := ⟨s.data.map Char.toLower⟩

/-- Substring occurrence on character lists (helper for `jsIncludes`). -/
def containsSub (sub : List Char) : List Char → Bool
  | [] => sub.isPrefixOf []
  | c :: t => sub.isPrefixOf (c :: t) || containsSub sub t

/-- Embedding of JavaScript `s.includes(sub)`. -/
def jsIncludes (s sub : String) : Bool := containsSub sub.data s.data

/-- JavaScript truthiness of a string-or-null value: `null`, `undefined` and
the empty string are falsy. -/
def jsTruthy (v : Option String) : Bool :=
  match v with
  | none => false
  | some s => s ≠ ""

/-- Embedding of JavaScript `a || b` on string-or-null values. -/
def jsOrElse (a b : Option String) : Option String := if jsTruthy a then a else b

/- ### Session middleware
(src/frontend/src/lib/supabase/middleware.ts, `updateSession`) -/

/-- The `protectedRoutes` array of `updateSession`. -/
def protectedRoutes : List String :=
  ["/dashboard", "/profile", "/favorites", "/watchlist", "/reviews/create", "/movies/rate"]

/-- The `authRoutes` array of `updateSession` (login/register pages). -/
def authRoutes : List String :=
  ["/auth/login", "/auth/register", "/auth/forgot-password", "/auth/reset-password"]

/-- The `authCallbackRoutes` array of `updateSession`. -/
def authCallbackRoutes : List String := ["/auth/callback", "/auth/auth-code-error"]

/-- `protectedRoutes.some(route => request.nextUrl.pathname.startsWith(route))`. -/
def isProtectedRoute (pathname : String) : Bool :=
  protectedRoutes.any (fun route => jsStartsWith pathname route)

/-- `authRoutes.some(route => request.nextUrl.pathname === route)`. -/
def isAuthRoute (pathname : String) : Bool :=
  authRoutes.any (fun route => pathname == route)

/-- `authCallbackRoutes.some(route => request.nextUrl.pathname.startsWith(route))`. -/
def isAuthCallbackRoute (pathname : String) : Bool :=
  authCallbackRoutes.any (fun route => jsStartsWith pathname route)

/-- Result of `supabase.auth.getUser()` as observed by the middleware: an
optional user (identified by id) and an optional error message. -/
structure GetUserResult where
  user : Option String
  error : Option String
deriving DecidableEq

/-- Modelled from the spec: a provider validate/refresh outcome that errored
(network failure, malformed token). Per the provider contract assumed by the
spec, an errored `getUser` call carries no user, so the session is absent. -/
def GetUserResult.ofError (msg : String) : GetUserResult := ⟨none, some msg⟩

/-- The middleware's observable decision: pass the request through, or
redirect to `url` (optionally carrying a `redirectTo` query parameter). -/
inductive MiddlewareResponse where
  | next
  | redirect (url : String) (redirectTo : Option String)
deriving DecidableEq

/-- Embedding of `updateSession` (middleware.ts lines 51-80): callback routes
pass through; a logged-in user on an auth page is redirected to `/dashboard`;
a logged-out user on a protected route is redirected to `/auth/login` with
`redirectTo` set to the requested pathname; otherwise pass through. -/
def updateSession (pathname : String) (g : GetUserResult) : MiddlewareResponse :=
  if isAuthCallbackRoute pathname then .next
  else if g.user.isSome && isAuthRoute pathname then .redirect "/dashboard" none
  else if g.user.isNone && isProtectedRoute pathname then
    .redirect "/auth/login" (some pathname)
  else .next

/- ### Prefix reasoning helpers -/

theorem jsStartsWith_iff (s pre : String) : jsStartsWith s pre = true ↔ pre.data <+: s.data := by
  simp [jsStartsWith, List.isPrefixOf_iff_prefix]

theorem data_append (a b : String) : (a ++ b).data = a.data ++ b.data := by
  cases a; cases b; rfl

/-- Two prefixes of the same list agree on shared indices; a disagreement is
a contradiction. -/
theorem prefix_confl {l₁ l₂ d : List Char} (h₁ : l₁ <+: d) (h₂ : l₂ <+: d)
    (i : Nat) (hi₁ : i < l₁.length) (hi₂ : i < l₂.length)
    (hne : l₁.get ⟨i, hi₁⟩ ≠ l₂.get ⟨i, hi₂⟩) : False := by
  obtain ⟨t₁, rfl⟩ := h₁
  obtain ⟨t₂, h₂⟩ := h₂
  have e1 : (l₁ ++ t₁)[i]? = some l₁[i] := by
    rw [List.getElem?_append_left hi₁]; simp [hi₁]
  have e2 : (l₂ ++ t₂)[i]? = some l₂[i] := by
    rw [List.getElem?_append_left hi₂]; simp [hi₂]
  rw [h₂, e1] at e2
  simp at e2
  exact hne (by simpa using e2)

theorem startsWith_confl {p a b : String} (ha : jsStartsWith p a = true)
    (hb : jsStartsWith p b = true) (i : Nat) (hia : i < a.data.length)
    (hib : i < b.data.length) (hne : a.data.get ⟨i, hia⟩ ≠ b.data.get ⟨i, hib⟩) : False :=
  prefix_confl ((jsStartsWith_iff p a).mp ha) ((jsStartsWith_iff p b).mp hb) i hia hib hne

/- ### Route-class disjointness -/

theorem isProtectedRoute_cases (p : String) (h : isProtectedRoute p = true) :
    jsStartsWith p "/dashboard" = true ∨ jsStartsWith p "/profile" = true ∨
    jsStartsWith p "/favorites" = true ∨ jsStartsWith p "/watchlist" = true ∨
    jsStartsWith p "/reviews/create" = true ∨ jsStartsWith p "/movies/rate" = true := by
  simpa [isProtectedRoute, protectedRoutes] using h

theorem isAuthCallbackRoute_cases (p : String) (h : isAuthCallbackRoute p = true) :
    jsStartsWith p "/auth/callback" = true ∨ jsStartsWith p "/auth/auth-code-error" = true := by
  simpa [isAuthCallbackRoute, authCallbackRoutes] using h

theorem isAuthRoute_cases (p : String) (h : isAuthRoute p = true) :
    p = "/auth/login" ∨ p = "/auth/register" ∨
    p = "/auth/forgot-password" ∨ p = "/auth/reset-password" := by
  simpa [isAuthRoute, authRoutes] using h

theorem protected_not_callback (p : String) (h : isProtectedRoute p = true) :
    isAuthCallbackRoute p = false := by
  rw [Bool.eq_false_iff]
  intro hc
  rcases isProtectedRoute_cases p h with h'|h'|h'|h'|h'|h' <;>
    rcases isAuthCallbackRoute_cases p hc with hc'|hc' <;>
      exact startsWith_confl h' hc' 1 (by decide) (by decide) (by decide)

theorem auth_not_callback (p : String) (h : isAuthRoute p = true) :
    isAuthCallbackRoute p = false := by
  rcases isAuthRoute_cases p h with rfl|rfl|rfl|rfl <;> decide

theorem auth_not_protected (p : String) (h : isAuthRoute p = true) :
    isProtectedRoute p = false := by
  rcases isAuthRoute_cases p h with rfl|rfl|rfl|rfl <;> decide

theorem protected_not_auth (p : String) (h : isProtectedRoute p = true) :
    isAuthRoute p = false := by
  cases hA : isAuthRoute p with
  | false => rfl
  | true => rw [auth_not_protected p hA] at h; exact absurd h (by simp)

/- ### Claim theorems: middleware -/

/-- Claim C1: for every request path and session state, `updateSession` acts
per the decision table — callback paths pass through regardless of session;
a protected path with no session redirects to `/auth/login` with
`redirectTo` equal to the requested path; a protected path with a session
passes through; an auth-only path with a session redirects to `/dashboard`;
an auth-only path without a session passes through. -/
theorem updateSession_decision_table (p : String) (g : GetUserResult) :
    (isAuthCallbackRoute p = true → updateSession p g = .next) ∧
    (isProtectedRoute p = true → g.user = none →
      updateSession p g = .redirect "/auth/login" (some p)) ∧
    (isProtectedRoute p = true → g.user.isSome = true → updateSession p g = .next) ∧
    (isAuthRoute p = true → g.user.isSome = true →
      updateSession p g = .redirect "/dashboard" none) ∧
    (isAuthRoute p = true → g.user = none → updateSession p g = .next) := by
  refine ⟨fun hc => by simp [updateSession, hc], ?_, ?_, ?_, ?_⟩
  · intro hp hu
    simp [updateSession, protected_not_callback p hp, hu, hp]
  · intro hp hu
    obtain ⟨u, hu'⟩ := Option.isSome_iff_exists.mp hu
    simp [updateSession, protected_not_callback p hp, protected_not_auth p hp, hu']
  · intro ha hu
    simp [updateSession, auth_not_callback p ha, ha, hu]
  · intro ha hu
    simp [updateSession, auth_not_callback p ha, auth_not_protected p ha, hu]

/-- Witness for C1 at concrete inputs: requesting `/dashboard` without a
session yields the login redirect carrying the requested path. -/
theorem updateSession_decision_table_witness :
    isProtectedRoute "/dashboard" = true ∧
    updateSession "/dashboard" ⟨none, none⟩ =
      .redirect "/auth/login" (some "/dashboard") :=
  ⟨by decide, (updateSession_decision_table "/dashboard" ⟨none, none⟩).2.1 (by decide) rfl⟩

/-- Claim C2: when the provider validate/refresh call errors, the middleware
treats the session as absent — the response is identical to the no-session
no-error response for every path (so the error causes no other behavior),
protected paths fail closed (redirect to login) and auth-only paths fail
open (pass through). -/
theorem updateSession_provider_error_as_absent (p msg : String) :
    updateSession p (GetUserResult.ofError msg) = updateSession p ⟨none, none⟩ ∧
    (isProtectedRoute p = true →
      updateSession p (GetUserResult.ofError msg) = .redirect "/auth/login" (some p)) ∧
    (isAuthRoute p = true → updateSession p (GetUserResult.ofError msg) = .next) := by
  refine ⟨rfl, ?_, ?_⟩
  · intro hp
    simp [updateSession, GetUserResult.ofError, protected_not_callback p hp, hp]
  · intro ha
    simp [updateSession, GetUserResult.ofError, auth_not_callback p ha,
      auth_not_protected p ha]

/-- Witness for C2 at concrete inputs: an errored refresh on `/profile`
redirects to login, and on `/auth/login` passes through. -/
theorem updateSession_provider_error_as_absent_witness :
    updateSession "/profile" (GetUserResult.ofError "network failure") =
      .redirect "/auth/login" (some "/profile") ∧
    updateSession "/auth/login" (GetUserResult.ofError "network failure") = .next :=
  ⟨(updateSession_provider_error_as_absent "/profile" "network failure").2.1 (by decide),
   (updateSession_provider_error_as_absent "/auth/login" "network failure").2.2 (by decide)⟩

/-- Counterexample to claim C3 as stated: `/dashboard/settings` is not one of
the six listed paths, yet the middleware classifies it as protected and
guards it with the login redirect — the match is by prefix, not exact. -/
theorem protected_route_guards_extensions :
    isProtectedRoute "/dashboard/settings" = true ∧
    "/dashboard/settings" ∉ protectedRoutes ∧
    updateSession "/dashboard/settings" ⟨none, none⟩ =
      .redirect "/auth/login" (some "/dashboard/settings") := by
  refine ⟨by decide, by decide, by decide⟩

/-- Claim C3 amended: the middleware classifies a path as protected if and
only if the path starts with one of the six listed paths (prefix match), so
every extension of a listed path is guarded as well. -/
theorem isProtectedRoute_startsWith_iff (p : String) :
    isProtectedRoute p = true ↔
      ("/dashboard".data <+: p.data ∨ "/profile".data <+: p.data ∨
       "/favorites".data <+: p.data ∨ "/watchlist".data <+: p.data ∨
       "/reviews/create".data <+: p.data ∨ "/movies/rate".data <+: p.data) := by
  simp [isProtectedRoute, protectedRoutes, jsStartsWith, List.isPrefixOf_iff_prefix]

/- ### Strict extensions of auth-only routes -/

theorem authLogin_ext_startsWith (s : String) :
    jsStartsWith ("/auth/login" ++ s) "/auth/login" = true := by
  rw [jsStartsWith_iff]
  exact ⟨s.data, (data_append _ _).symm⟩

theorem authLogin_ext_not_authRoute (s : String) (hs : s ≠ "") :
    isAuthRoute ("/auth/login" ++ s) = false := by
  rw [Bool.eq_false_iff]
  intro h
  have e0 : "/auth/login".data = ['/', 'a', 'u', 't', 'h', '/', 'l', 'o', 'g', 'i', 'n'] := rfl
  rcases isAuthRoute_cases _ h with h'|h'|h'|h'
  · have hd := congrArg String.data h'
    rw [data_append, e0] at hd
    have hl := congrArg List.length hd
    simp at hl
    exact hs (by cases s with | mk d => simp_all)
  · have hd := congrArg String.data h'
    have e1 : "/auth/register".data =
      ['/', 'a', 'u', 't', 'h', '/', 'r', 'e', 'g', 'i', 's', 't', 'e', 'r'] := rfl
    rw [data_append, e0, e1] at hd
    simp at hd
  · have hd := congrArg String.data h'
    have e1 : "/auth/forgot-password".data =
      ['/', 'a', 'u', 't', 'h', '/', 'f', 'o', 'r', 'g', 'o', 't', '-', 'p', 'a', 's', 's',
       'w', 'o', 'r', 'd'] := rfl
    rw [data_append, e0, e1] at hd
    simp at hd
  · have hd := congrArg String.data h'
    have e1 : "/auth/reset-password".data =
      ['/', 'a', 'u', 't', 'h', '/', 'r', 'e', 's', 'e', 't', '-', 'p', 'a', 's', 's',
       'w', 'o', 'r', 'd'] := rfl
    rw [data_append, e0, e1] at hd
    simp at hd

theorem authLogin_ext_not_callback (s : String) :
    isAuthCallbackRoute ("/auth/login" ++ s) = false := by
  rw [Bool.eq_false_iff]
  intro h
  rcases isAuthCallbackRoute_cases _ h with h'|h' <;>
    exact startsWith_confl (authLogin_ext_startsWith s) h' 6 (by decide) (by decide) (by decide)

theorem authLogin_ext_not_protected (s : String) :
    isProtectedRoute ("/auth/login" ++ s) = false := by
  rw [Bool.eq_false_iff]
  intro h
  rcases isProtectedRoute_cases _ h with h'|h'|h'|h'|h'|h' <;>
    exact startsWith_confl (authLogin_ext_startsWith s) h' 1 (by decide) (by decide) (by decide)

theorem dashboard_ext_protected (s : String) :
    isProtectedRoute ("/dashboard" ++ s) = true := by
  simp [isProtectedRoute, protectedRoutes]
  exact Or.inl ((jsStartsWith_iff _ _).mpr ⟨s.data, (data_append _ _).symm⟩)

/-- Claim C10: the middleware matches auth-only routes by exact string
equality, so a strict extension of `/auth/login` is never redirected to the
authenticated landing page for any session state (it always passes through);
by contrast protected routes match by prefix, so the same extension of
`/dashboard` is still guarded. -/
theorem authRoute_exact_match_no_redirect (s : String) (hs : s ≠ "") (g : GetUserResult) :
    updateSession ("/auth/login" ++ s) g = .next ∧
    updateSession ("/dashboard" ++ s) ⟨none, none⟩ =
      .redirect "/auth/login" (some ("/dashboard" ++ s)) := by
  constructor
  · simp [updateSession, authLogin_ext_not_callback s, authLogin_ext_not_authRoute s hs,
      authLogin_ext_not_protected s]
  · have hp := dashboard_ext_protected s
    simp [updateSession, protected_not_callback _ hp, protected_not_auth _ hp, hp]

/-- Witness for C10 at concrete inputs: a logged-in request for
`/auth/login/extra` passes through instead of being sent to `/dashboard`. -/
theorem authRoute_exact_match_no_redirect_witness :
    updateSession ("/auth/login" ++ "/extra") ⟨some "user-1", none⟩ = .next :=
  (authRoute_exact_match_no_redirect "/extra" (by decide) ⟨some "user-1", none⟩).1

/- ### Auth Service (src/frontend/src/lib/auth.ts) -/

/-- Outcome of the provider call `supabase.auth.resetPasswordForEmail`: the
call may throw, or resolve with an optional error. -/
inductive ResetEmailProviderOutcome where
  | throws
  | returns (error : Option String)
deriving DecidableEq

/-- The `{error?}` shape returned by `AuthService.sendPasswordResetEmail`. -/
structure ResetEmailResult where
  error : Option String
deriving DecidableEq

/-- Embedding of `AuthService.sendPasswordResetEmail` (auth.ts lines
127-141): forwards the provider error message, substitutes the generic
message when the call throws, and returns the success shape otherwise. -/
def AuthService.sendPasswordResetEmail (o : ResetEmailProviderOutcome) : ResetEmailResult :=
  match o with
  | .throws => ⟨some "Failed to send password reset email"⟩
  | .returns (some msg) => ⟨some msg⟩
  | .returns none => ⟨none⟩

/-- Modelled from the spec: the identity provider (outside this repository)
resolves `resetPasswordForEmail` with a success-shaped response whether or
not the email belongs to an existing account (anti-enumeration policy, spec
section 4.2). The argument records which of the two runs is being made. -/
def providerResetOutcome : Bool → ResetEmailProviderOutcome :=
  fun _ => .returns none

/-- Claim C4: `sendPasswordResetEmail` returns a success-shaped (non-error)
result both for an email of an existing account and for an unknown email;
the two returned values are identical, so the caller cannot distinguish the
cases. -/
theorem sendPasswordResetEmail_anti_enumeration :
    AuthService.sendPasswordResetEmail (providerResetOutcome true) =
      AuthService.sendPasswordResetEmail (providerResetOutcome false) ∧
    (AuthService.sendPasswordResetEmail (providerResetOutcome true)).error = none ∧
    (AuthService.sendPasswordResetEmail (providerResetOutcome false)).error = none :=
  ⟨rfl, rfl, rfl⟩

/-- A user value as returned by `AuthService.updatePassword`: either the
provider's user object, or the substituted success sentinel (the literal
object with `updated` set) when the provider returned no user. -/
inductive UpdatedUser where
  | real (id : String)
  | sentinel
deriving DecidableEq

/-- The `{user, error}` shape returned by `AuthService.updatePassword`. -/
structure UpdatePasswordResult where
  user : Option UpdatedUser
  error : Option String
deriving DecidableEq

/-- Outcome of the provider call `supabase.auth.updateUser`: it may throw,
resolve with an error, or resolve successfully with an optional user. -/
inductive UpdateUserOutcome where
  | throws (msg : String)
  | rejects (msg : String)
  | succeeds (userId : Option String)
deriving DecidableEq

/-- Embedding of `AuthService.updatePassword` (auth.ts lines 146-185). The
password and nonce are forwarded to the provider (abstracted by the outcome
argument) and do not otherwise influence the returned shape: on a provider
error or a thrown exception the result is `user = null` with a message; on
success the user is the provider's user object, or the sentinel when the
provider returned none. -/
def AuthService.updatePassword (_newPassword : String) (_nonce : Option String)
    (o : UpdateUserOutcome) : UpdatePasswordResult :=
  match o with
  | .throws msg => ⟨none, some msg⟩
  | .rejects msg => ⟨none, some msg⟩
  | .succeeds (some id) => ⟨some (.real id), none⟩
  | .succeeds none => ⟨some .sentinel, none⟩

/-- Claim C9: for every input and provider outcome, a result of
`AuthService.updatePassword` with `error = null` carries a non-null user
(the sentinel is substituted when the provider returns no user object), so
the consuming form's no-error-but-no-user branch is unreachable. -/
theorem updatePassword_no_silent_null_user (pw : String) (nonce : Option String)
    (o : UpdateUserOutcome) (h : (AuthService.updatePassword pw nonce o).error = none) :
    (AuthService.updatePassword pw nonce o).user ≠ none := by
  cases o with
  | throws msg => simp [AuthService.updatePassword] at h
  | rejects msg => simp [AuthService.updatePassword] at h
  | succeeds u => cases u <;> simp [AuthService.updatePassword]

/-- Witness for C9 at a concrete input: a success with no provider user
object yields no error and a non-null (sentinel) user. -/
theorem updatePassword_no_silent_null_user_witness :
    (AuthService.updatePassword "NewPass123!" none (.succeeds none)).error = none ∧
    (AuthService.updatePassword "NewPass123!" none (.succeeds none)).user ≠ none :=
  ⟨rfl, updatePassword_no_silent_null_user "NewPass123!" none (.succeeds none) rfl⟩

/- ### Password reset service (PasswordResetService, unnamed source file) -/

/-- Embedding of `URLSearchParams.get`: the first value bound to `key` in
the parsed parameter list, or absent. -/
def urlParamsGet (params : List (String × String)) (key : String) : Option String :=
  (params.find? (fun kv => kv.1 == key)).map (fun kv => kv.2)

/-- Embedding of `PasswordResetService.extractTokensFromUrl`: `hash` holds
the parsed URL-fragment parameters and `search` the parsed query-string
parameters; each token is computed as
`hashParams.get(k) || searchParams.get(k) || undefined`, looking in the
fragment first and then the query string with JavaScript truthiness. -/
def PasswordResetService.extractTokensFromUrl (hash search : List (String × String)) :
    Option String × Option String :=
  (jsOrElse (jsOrElse (urlParamsGet hash "access_token")
      (urlParamsGet search "access_token")) none,
   jsOrElse (jsOrElse (urlParamsGet hash "refresh_token")
      (urlParamsGet search "refresh_token")) none)

/-- Whether a parameter list carries the full token pair (both keys bound to
truthy values). -/
def hasTokenPair (params : List (String × String)) : Bool :=
  jsTruthy (urlParamsGet params "access_token") &&
  jsTruthy (urlParamsGet params "refresh_token")

theorem jsTruthy_isSome (a : Option String) (h : jsTruthy a = true) : a.isSome = true := by
  cases a <;> simp_all [jsTruthy]

theorem jsOrElse_none_isSome (a b : Option String) :
    (jsOrElse (jsOrElse a b) none).isSome = (jsTruthy a || jsTruthy b) := by
  cases ha : jsTruthy a
  · cases hb : jsTruthy b
    · simp [jsOrElse, ha, hb]
    · simp [jsOrElse, ha, hb, jsTruthy_isSome b hb]
  · simp [jsOrElse, ha, jsTruthy_isSome a ha]

/-- Claim C7: `extractTokensFromUrl` returns both tokens whenever the
access/refresh token pair is carried in the URL fragment or in the query
string, and returns neither token only when the pair appears in neither
location. -/
theorem extractTokens_from_hash_or_query (hash search : List (String × String)) :
    (hasTokenPair hash = true ∨ hasTokenPair search = true →
      (PasswordResetService.extractTokensFromUrl hash search).1.isSome = true ∧
      (PasswordResetService.extractTokensFromUrl hash search).2.isSome = true) ∧
    ((PasswordResetService.extractTokensFromUrl hash search).1 = none ∧
     (PasswordResetService.extractTokensFromUrl hash search).2 = none →
      hasTokenPair hash = false ∧ hasTokenPair search = false) := by
  constructor
  · rintro (hp | hp) <;>
      rw [hasTokenPair, Bool.and_eq_true] at hp <;>
      exact ⟨by simp [PasswordResetService.extractTokensFromUrl, jsOrElse_none_isSome, hp.1],
             by simp [PasswordResetService.extractTokensFromUrl, jsOrElse_none_isSome, hp.2]⟩
  · intro h
    constructor
    · cases hh : hasTokenPair hash with
      | false => rfl
      | true =>
        exfalso
        rw [hasTokenPair, Bool.and_eq_true] at hh
        have hs : (PasswordResetService.extractTokensFromUrl hash search).1.isSome = true := by
          simp [PasswordResetService.extractTokensFromUrl, jsOrElse_none_isSome, hh.1]
        rw [h.1] at hs
        simp at hs
    · cases hh : hasTokenPair search with
      | false => rfl
      | true =>
        exfalso
        rw [hasTokenPair, Bool.and_eq_true] at hh
        have hs : (PasswordResetService.extractTokensFromUrl hash search).1.isSome = true := by
          simp [PasswordResetService.extractTokensFromUrl, jsOrElse_none_isSome, hh.1]
        rw [h.1] at hs
        simp at hs

/-- Witness for C7 at concrete inputs: a pair carried in the fragment only,
and a pair carried in the query string only, are both extracted. -/
theorem extractTokens_from_hash_or_query_witness :
    ((PasswordResetService.extractTokensFromUrl
        [("access_token", "tok-a"), ("refresh_token", "tok-r")] []).1.isSome = true ∧
     (PasswordResetService.extractTokensFromUrl
        [("access_token", "tok-a"), ("refresh_token", "tok-r")] []).2.isSome = true) ∧
    ((PasswordResetService.extractTokensFromUrl []
        [("access_token", "tok-a"), ("refresh_token", "tok-r")]).1.isSome = true ∧
     (PasswordResetService.extractTokensFromUrl []
        [("access_token", "tok-a"), ("refresh_token", "tok-r")]).2.isSome = true) :=
  ⟨(extractTokens_from_hash_or_query
      [("access_token", "tok-a"), ("refresh_token", "tok-r")] []).1 (Or.inl (by decide)),
   (extractTokens_from_hash_or_query []
      [("access_token", "tok-a"), ("refresh_token", "tok-r")]).1 (Or.inr (by decide))⟩

/- ### Client-side password strength policy -/

/-- The regex character class `[a-z]`. -/
def isAsciiLower (c : Char) : Bool := 'a' ≤ c && c ≤ 'z'

/-- The regex character class `[A-Z]`. -/
def isAsciiUpper (c : Char) : Bool := 'A' ≤ c && c ≤ 'Z'

/-- The regex character class `[0-9]` (the escape for digits). -/
def isAsciiDigit (c : Char) : Bool := '0' ≤ c && c ≤ '9'

/-- Code points of the 30 symbols in the special-character class shared by
both validators (exclamation through question mark, including brackets,
braces, quotes and backslash). -/
def specialCharCodes : List Nat :=
  [33, 64, 35, 36, 37, 94, 38, 42, 40, 41, 95, 43, 45, 61, 91, 93, 123, 125,
   59, 39, 58, 34, 92, 124, 44, 46, 60, 62, 47, 63]

/-- Membership in the special-character class of both validators. -/
def isSpecialChar (c : Char) : Bool := specialCharCodes.contains c.toNat

/-- Embedding of `validatePassword` from the reset-password form
(`ResetPasswordForm`, unnamed source file, lines 43-52): the first unmet
rule's message, or the empty string when every rule is satisfied. -/
def ResetPasswordForm.validatePassword (password : String) : String :=
  if password = "" then "Password is required"
  else if password.length < 8 then "Password must be at least 8 characters"
  else if 128 < password.length then "Password is too long"
  else if !password.data.any isAsciiLower then
    "Password must contain at least one lowercase letter"
  else if !password.data.any isAsciiUpper then
    "Password must contain at least one uppercase letter"
  else if !password.data.any isAsciiDigit then
    "Password must contain at least one number"
  else if !password.data.any isSpecialChar then
    "Password must contain at least one special character"
  else ""

/-- Embedding of `validatePassword` from
src/frontend/src/components/auth/DashboardPasswordReset.tsx lines 31-40
(the dashboard password-reset form duplicates the validator verbatim). -/
def DashboardPasswordReset.validatePassword (password : String) : String :=
  if password = "" then "Password is required"
  else if password.length < 8 then "Password must be at least 8 characters"
  else if 128 < password.length then "Password is too long"
  else if !password.data.any isAsciiLower then
    "Password must contain at least one lowercase letter"
  else if !password.data.any isAsciiUpper then
    "Password must contain at least one uppercase letter"
  else if !password.data.any isAsciiDigit then
    "Password must contain at least one number"
  else if !password.data.any isSpecialChar then
    "Password must contain at least one special character"
  else ""

/-- Claim C8: the password-strength policy is enforced identically in the
reset-password form and the dashboard password-reset form — the two
validators return the same result on every input — and a password is
accepted (empty message) exactly when its length is between 8 and 128 and it
contains a lowercase letter, an uppercase letter, a digit and a symbol;
otherwise the first unmet rule's message is returned (same in both). -/
theorem validatePassword_same_policy (p : String) :
    ResetPasswordForm.validatePassword p = DashboardPasswordReset.validatePassword p ∧
    (ResetPasswordForm.validatePassword p = "" ↔
      (8 ≤ p.length ∧ p.length ≤ 128 ∧ p.data.any isAsciiLower = true ∧
       p.data.any isAsciiUpper = true ∧ p.data.any isAsciiDigit = true ∧
       p.data.any isSpecialChar = true)) := by
  refine ⟨rfl, ?_⟩
  unfold ResetPasswordForm.validatePassword
  split_ifs with h1 h2 h3 h4 h5 h6 h7
  · subst h1; decide
  · exact iff_of_false (by decide) (fun hr => absurd hr.1 (by omega))
  · exact iff_of_false (by decide) (fun hr => absurd hr.2.1 (by omega))
  · refine iff_of_false (by decide) (fun hr => ?_)
    rw [hr.2.2.1] at h4; simp at h4
  · refine iff_of_false (by decide) (fun hr => ?_)
    rw [hr.2.2.2.1] at h5; simp at h5
  · refine iff_of_false (by decide) (fun hr => ?_)
    rw [hr.2.2.2.2.1] at h6; simp at h6
  · refine iff_of_false (by decide) (fun hr => ?_)
    rw [hr.2.2.2.2.2] at h7; simp at h7
  · rw [Bool.not_eq_true, Bool.not_eq_false'] at h4 h5 h6 h7
    exact iff_of_true rfl ⟨by omega, by omega, h4, h5, h6, h7⟩

/- ### Dashboard password-reset flow
(src/frontend/src/components/auth/DashboardPasswordReset.tsx) -/

/-- The component state relevant to the reauthentication flow: the
`needsReauth`, `reauthSent`, `isSuccess` booleans and the inline nonce error
(the `nonce` entry of the `errors` record). -/
structure DashState where
  needsReauth : Bool
  reauthSent : Bool
  nonceError : Option String
  isSuccess : Bool
deriving DecidableEq

/-- The user-visible outcome of one submission: which toast or inline error
is surfaced. -/
inductive DashOutcome where
  | successToast
  | samePasswordToast
  | reauthCodeSentToast
  | reauthSendFailedToast (msg : String)
  | nonceInlineError
  | timeoutToast
  | genericErrorToast (msg : String)
deriving DecidableEq

/-- The same-password test of `handlePasswordUpdate` lines 114-116: the
lowercased provider message contains one of the three markers. -/
def errorIsSamePassword (raw : String) : Bool :=
  jsIncludes (jsToLower raw) "new password should be different" ||
  jsIncludes (jsToLower raw) "same as" ||
  jsIncludes (jsToLower raw) "already"

/-- The reauthentication-required test of `handlePasswordUpdate` lines
124-127: the lowercased provider message contains one of the four markers. -/
def errorIsReauthRequired (raw : String) : Bool :=
  jsIncludes (jsToLower raw) "reauthentication" ||
  jsIncludes (jsToLower raw) "nonce" ||
  jsIncludes (jsToLower raw) "verification" ||
  jsIncludes (jsToLower raw) "recent sign"

/-- The timeout test of `handlePasswordUpdate` line 143. -/
def errorIsTimeout (raw : String) : Bool :=
  jsIncludes (jsToLower raw) "timeout"

/-- Embedding of `handleSendReauth` (DashboardPasswordReset.tsx lines
65-87): makes exactly one `authService.reauthenticate` call (the returned
count), clears errors, and on success marks the flow as needing and having
sent reauthentication. `reauthErr` is the error of that provider call. -/
def handleSendReauth (st : DashState) (reauthErr : Option String) :
    DashState × Nat × DashOutcome :=
  match reauthErr with
  | some msg => ({ st with nonceError := none }, 1, .reauthSendFailedToast msg)
  | none => ({ st with nonceError := none, reauthSent := true, needsReauth := true },
             1, .reauthCodeSentToast)

/-- The inline nonce error message set when a supplied nonce is rejected
(DashboardPasswordReset.tsx line 139). -/
def invalidNonceMsg : String := "Invalid or expired verification code. Please try again."

/-- Embedding of `handlePasswordUpdate` (DashboardPasswordReset.tsx lines
89-165) after client-side validation passed: `updateErr` is the error of the
`authService.updatePassword` call (`none` on success), `reauthErr` the error
of the `authService.reauthenticate` call should one be made. Returns the new
state, the number of reauthenticate (nonce-dispatch) calls made during this
submission, and the surfaced outcome. -/
def handlePasswordUpdate (st : DashState) (updateErr : Option String)
    (reauthErr : Option String) : DashState × Nat × DashOutcome :=
  let st0 := { st with nonceError := none }
  match updateErr with
  | none => ({ st0 with isSuccess := true }, 0, .successToast)
  | some raw =>
    if errorIsSamePassword raw then (st0, 0, .samePasswordToast)
    else if errorIsReauthRequired raw then
      if !st0.needsReauth then handleSendReauth st0 reauthErr
      else ({ st0 with nonceError := some invalidNonceMsg }, 0, .nonceInlineError)
    else if errorIsTimeout raw then (st0, 0, .timeoutToast)
    else (st0, 0, .genericErrorToast raw)

/-- Claim C5: a reauthentication-required rejection (a message in the
reauthentication class and not in the same-password class) with no nonce yet
supplied (`needsReauth` false) makes exactly one nonce-dispatch
(reauthenticate) call, and when that dispatch succeeds the flow enters the
needs-reauthentication state; once a nonce has been supplied (`needsReauth`
true), a wrong or expired nonce keeps the flow in that state with the inline
nonce error and makes no further nonce-dispatch call. -/
theorem reauth_dispatch_once (st : DashState) (raw : String)
    (hsame : errorIsSamePassword raw = false)
    (hreauth : errorIsReauthRequired raw = true) :
    (st.needsReauth = false → ∀ reauthErr : Option String,
      (handlePasswordUpdate st (some raw) reauthErr).2.1 = 1 ∧
      (reauthErr = none →
        (handlePasswordUpdate st (some raw) reauthErr).1.needsReauth = true)) ∧
    (st.needsReauth = true → ∀ reauthErr : Option String,
      (handlePasswordUpdate st (some raw) reauthErr).2.1 = 0 ∧
      (handlePasswordUpdate st (some raw) reauthErr).1.needsReauth = true ∧
      (handlePasswordUpdate st (some raw) reauthErr).1.nonceError =
        some invalidNonceMsg) := by
  constructor
  · intro h reauthErr
    cases reauthErr <;>
      simp [handlePasswordUpdate, handleSendReauth, hsame, hreauth, h]
  · intro h reauthErr
    simp [handlePasswordUpdate, hsame, hreauth, h]

/-- Witness for C5 at concrete inputs: a first reauthentication-required
rejection dispatches one nonce email and enters the needs-reauthentication
state; a second rejection with a nonce supplied dispatches none and sets the
inline nonce error. -/
theorem reauth_dispatch_once_witness :
    ((handlePasswordUpdate ⟨false, false, none, false⟩
        (some "Reauthentication required") none).2.1 = 1 ∧
     (handlePasswordUpdate ⟨false, false, none, false⟩
        (some "Reauthentication required") none).1.needsReauth = true) ∧
    ((handlePasswordUpdate ⟨true, true, none, false⟩
        (some "Nonce has expired or is invalid") none).2.1 = 0 ∧
     (handlePasswordUpdate ⟨true, true, none, false⟩
        (some "Nonce has expired or is invalid") none).1.nonceError =
        some invalidNonceMsg) := by
  have h1 := (reauth_dispatch_once ⟨false, false, none, false⟩
    "Reauthentication required" (by decide) (by decide)).1 rfl none
  have h2 := (reauth_dispatch_once ⟨true, true, none, false⟩
    "Nonce has expired or is invalid" (by decide) (by decide)).2 rfl none
  exact ⟨⟨h1.1, h1.2 rfl⟩, ⟨h2.1, h2.2.2⟩⟩

/-- Claim C6: when the provider rejects the password update because the new
password equals the current one (the same-password message class), the flow
surfaces the specific distinct message and terminates the submission with no
state transition, no nonce-dispatch call, and neither the reauthentication
nor the generic failure path. -/
theorem same_password_distinct_message (st : DashState) (raw : String)
    (reauthErr : Option String) (h : errorIsSamePassword raw = true) :
    handlePasswordUpdate st (some raw) reauthErr =
      ({ st with nonceError := none }, 0, .samePasswordToast) := by
  simp [handlePasswordUpdate, h]

/-- Witness for C6 at a concrete input: the provider's actual same-password
message yields the specific outcome and no nonce dispatch. -/
theorem same_password_distinct_message_witness :
    handlePasswordUpdate ⟨false, false, none, false⟩
      (some "New password should be different from the old password.") none =
      (⟨false, false, none, false⟩, 0, .samePasswordToast) :=
  same_password_distinct_message ⟨false, false, none, false⟩
    "New password should be different from the old password." none (by decide)
